import Mathlib

/-!
Verification of the mobile robot controller frontend
(`frontend/src/components/RobotController.jsx` and `frontend/src/utils/mock.js`).

The React component is embedded shallowly as a pure state machine: the
component's `useState` hooks become fields of `UIState`, the event handlers
become functions `UIState → UIState × List OutEvent`, where the returned list
records the outbound effects (WebSocket frames written to the robot-facing
channel and socket-close calls) in the order they are issued.
-/

namespace RobotApp

/-- An outbound effect of the controller: either a text frame written to the
WebSocket channel, or a call to close the socket handle. -/
inductive OutEvent : Type where
  | frame (data : String)
  | wsClose
deriving DecidableEq, Repr

/-- The component state of `RobotController`: one field per `useState` hook,
plus `hasWs` for whether `wsRef.current` is non-null and `timerPending` for
whether `commandTimeoutRef` holds a live timeout. -/
structure UIState : Type where
  ipAddress : String
  isConnected : Bool
  isConnecting : Bool
  speed : Nat
  activeCommand : String
  connectionStatus : String
  hasWs : Bool
  timerPending : Bool
deriving DecidableEq, Repr

/-- The initial state of the component: `useState('192.168.1.22')`,
`useState(false)`, `useState(false)`, `useState([50])`, `useState('')`,
`useState('Disconnected')`, and both refs null. -/
def initState : UIState :=
  { ipAddress := "192.168.1.22"
    isConnected := false
    isConnecting := false
    speed := 50
    activeCommand := ""
    connectionStatus := "Disconnected"
    hasWs := false
    timerPending := false }

/-- Handler `sendCommand(command)`: returns early when `!isConnected || !wsRef.current`;
otherwise writes the bare command string to the socket, records it as the
active command, and (re)arms the 150 ms visual-feedback timeout. -/
def sendCommand (s : UIState) (command : String) : UIState × List OutEvent :=
  if s.isConnected && s.hasWs then
    ({ s with activeCommand := command, timerPending := true },
     [OutEvent.frame command])
  else
    (s, [])

/-- The 150 ms timeout armed by `sendCommand` firing: clears the active
command (this exists purely for visual feedback on the buttons). -/
def commandTimeoutFire (s : UIState) : UIState :=
  { s with activeCommand := "", timerPending := false }

/-- Handler `handleTouchStart(command)`: just forwards to `sendCommand`. -/
def handleTouchStart (s : UIState) (command : String) : UIState × List OutEvent :=
  sendCommand s command

/-- The directional command codes tested by `handleTouchEnd`. -/
def directionalCommands : List String := ["U", "D", "L", "R"]

/-- Handler `handleTouchEnd()`: sends the halt command `H` when the currently recorded
active command is a (truthy) directional code, and does nothing otherwise. -/
def handleTouchEnd (s : UIState) : UIState × List OutEvent :=
  if s.activeCommand != "" && directionalCommands.contains s.activeCommand then
    sendCommand s "H"
  else
    (s, [])

/-- Handler `emergencyStop()`: sends `H`. -/
def emergencyStop (s : UIState) : UIState × List OutEvent :=
  sendCommand s "H"

/-- Handler `handleSpeedChange(newSpeed)`: stores the new slider value, then — when
connected and the value actually changed — sends `W` for an increase and `S`
for a decrease (the comparison reads the render-time `speed` value). -/
def handleSpeedChange (s : UIState) (newSpeed : Nat) : UIState × List OutEvent :=
  let s1 : UIState := { s with speed := newSpeed }
  if s.isConnected && (newSpeed != s.speed) then
    sendCommand s1 (if s.speed < newSpeed then "W" else "S")
  else
    (s1, [])

/-- The exact text produced by `JSON.stringify` on the connect control
message sent in `ws.onopen`. -/
def connectJson : String := "\x7b\"type\":\"connect\"\x7d"

/-- The exact text produced by `JSON.stringify` on the disconnect control
message sent in `disconnect()`. -/
def disconnectJson : String := "\x7b\"type\":\"disconnect\"\x7d"

/-- Whether a string trims to the empty string, i.e. every character is
whitespace — the `!ipAddress.trim()` guard at the top of `connect()`. -/
def isBlank (a : String) : Bool :=
  a.data.all Char.isWhitespace

/-- Operation `connect()` up to its first asynchronous boundary: returns silently when
the trimmed address is empty, otherwise marks the session connecting and sets
the status text (the WebSocket object itself produces no frame until open). -/
def connect (s : UIState) : UIState × List OutEvent :=
  if isBlank s.ipAddress then
    (s, [])
  else
    ({ s with isConnecting := true, connectionStatus := "Connecting...", hasWs := true }, [])

/-- Callback `ws.onopen`: updates the status text and sends the structured connect
request over the channel. -/
def onOpen (s : UIState) : UIState × List OutEvent :=
  ({ s with connectionStatus := "Establishing robot connection..." },
   [OutEvent.frame connectJson])

/-- The shapes of data the `ws.onmessage` handler distinguishes after
`JSON.parse`: a `status` message carrying its `connected` flag, an `error`
message, an `acknowledgment`, any other parsed object, or unparseable data
(the `catch` branch). -/
inductive InMessage : Type where
  | status (connected : Bool)
  | error (message : String)
  | acknowledgment (command : String)
  | other
  | unparseable
deriving DecidableEq, Repr

/-- Callback `ws.onmessage`: only a `status` message with a truthy `connected` field
sets `isConnected`; an `error` message only changes the status text; every
other shape (acknowledgments, other objects, parse failures) just logs. -/
def onMessage (s : UIState) (m : InMessage) : UIState :=
  match m with
  | InMessage.status true => { s with isConnected := true, connectionStatus := "Connected" }
  | InMessage.status false => s
  | InMessage.error _ => { s with connectionStatus := "Connection Failed" }
  | InMessage.acknowledgment _ => s
  | InMessage.other => s
  | InMessage.unparseable => s

/-- Callback `ws.onerror`: sets the status text and clears the connecting flag. -/
def onError (s : UIState) : UIState :=
  { s with connectionStatus := "WebSocket Error", isConnecting := false }

/-- Callback `ws.onclose`: clears the connected flag, resets the status text and nulls
the socket reference. -/
def onClose (s : UIState) : UIState :=
  { s with isConnected := false, connectionStatus := "Disconnected", hasWs := false }

/-- Operation `disconnect()`: when a socket handle is held, sends the structured
disconnect message, closes the socket and nulls the reference; in every case
resets the connected/connecting flags, status text and active command. -/
def disconnect (s : UIState) : UIState × List OutEvent :=
  let (s1, out) :=
    if s.hasWs then
      ({ s with hasWs := false }, [OutEvent.frame disconnectJson, OutEvent.wsClose])
    else
      (s, [])
  ({ s1 with isConnected := false
             connectionStatus := "Disconnected"
             activeCommand := ""
             isConnecting := false }, out)

/-- The `useEffect` cleanup run on unmount: closes the socket when the
reference is non-null and cancels the pending command timeout. -/
def unmountCleanup (s : UIState) : UIState × List OutEvent :=
  ({ s with timerPending := false },
   if s.hasWs then [OutEvent.wsClose] else [])

/-- Folding `sendCommand` over a list of commands issued back to back,
collecting all channel writes in order. -/
def sendAll (s : UIState) (cmds : List String) : UIState × List OutEvent :=
  match cmds with
  | [] => (s, [])
  | c :: rest =>
    let p1 := sendCommand s c
    let p2 := sendAll p1.1 rest
    (p2.1, p1.2 ++ p2.2)

/-- The `readyState` constants of the (mock) WebSocket. -/
inductive ReadyState : Type where
  | CONNECTING
  | OPEN
  | CLOSING
  | CLOSED
deriving DecidableEq, Repr

/-- The state of `MockWebSocket` from `utils/mock.js` that `send`/`close`
consult: its URL and `readyState`. -/
structure MockWebSocket : Type where
  url : String
  readyState : ReadyState
deriving DecidableEq, Repr

/-- Method `MockWebSocket.send(data)`: throws `'WebSocket is not open'` unless
`readyState === OPEN`; otherwise performs the (logged) robot-facing write,
returned here as the list of written frames. -/
def MockWebSocket.send (ws : MockWebSocket) (data : String) :
    Except String (List String) :=
  if ws.readyState = ReadyState.OPEN then
    Except.ok [data]
  else
    Except.error "WebSocket is not open"

/-- A controller state in which the robot session is established: the
connected flag is set and the socket reference is non-null. -/
def connectedState : UIState :=
  { initState with isConnected := true, hasWs := true, connectionStatus := "Connected" }

/-- A controller state holding a socket reference while the robot session is
not (or no longer) connected. -/
def disconnectedWithWs : UIState :=
  { initState with hasWs := true }

theorem sendCommand_fst_isConnected (s : UIState) (c : String) :
    ((sendCommand s c).1).isConnected = s.isConnected := by
  unfold sendCommand; split <;> rfl

theorem sendCommand_fst_hasWs (s : UIState) (c : String) :
    ((sendCommand s c).1).hasWs = s.hasWs := by
  unfold sendCommand; split <;> rfl

theorem sendCommand_fst_speed (s : UIState) (c : String) :
    ((sendCommand s c).1).speed = s.speed := by
  unfold sendCommand; split <;> rfl

theorem sendCommand_connected_frames (s : UIState) (c : String)
    (h1 : s.isConnected = true) (h2 : s.hasWs = true) :
    (sendCommand s c).2 = [OutEvent.frame c] := by
  unfold sendCommand
  rw [h1, h2]
  rfl

/-- **C1.** The claim says the halt command `H` is sent whenever a
press-and-hold gesture on a directional button ends, regardless of how long
the button was held.  The code contradicts this: `sendCommand` arms a 150 ms
timeout that clears `activeCommand` for visual feedback, and `handleTouchEnd`
sends `H` only when `activeCommand` still holds a directional code.  This
theorem evaluates the code at the failing input: in a connected session,
press `U`, hold until the visual-feedback timeout fires, then release — the
release handler writes nothing (in particular, no `H`) to the channel. -/
theorem C1_halt_dropped_after_long_hold :
    (handleTouchEnd (commandTimeoutFire (handleTouchStart connectedState "U").1)).2
      = [] := by
  rfl

/-- **C2 counterexample.** The claim says a send issued while not connected
yields an error acknowledgment back to the caller.  At the concrete
disconnected state below, `sendCommand "U"` returns with the state completely
unchanged (status text still `"Disconnected"`, no field altered) and an empty
effect list: nothing resembling an error acknowledgment is produced. -/
theorem C2_disconnected_send_is_total_noop :
    sendCommand disconnectedWithWs "U" = (disconnectedWithWs, []) ∧
    disconnectedWithWs.connectionStatus = "Disconnected" := by
  exact ⟨rfl, rfl⟩

/-- **C2 (amended).** A send issued while the session is not connected
produces no write to the robot-facing channel; the UI's `sendCommand` drops
the command silently (returning with the state unchanged and no error
acknowledgment), while the mock socket layer's `send` raises the error
`'WebSocket is not open'` when invoked on a non-open socket. -/
theorem C2_disconnected_send_no_write (s : UIState) (cmd : String)
    (h : s.isConnected = false) :
    sendCommand s cmd = (s, []) ∧
    (∀ ws : MockWebSocket, ∀ data : String, ws.readyState ≠ ReadyState.OPEN →
      MockWebSocket.send ws data = Except.error "WebSocket is not open") := by
  constructor
  · unfold sendCommand
    rw [h]
    rfl
  · intro ws data hws
    unfold MockWebSocket.send
    rw [if_neg hws]

/-- **C2 witness.** -/
theorem C2_disconnected_send_no_write_witness :
    sendCommand initState "H" = (initState, []) :=
  (C2_disconnected_send_no_write initState "H" rfl).1

/-- **C3.** For every sequence of `send(command)` calls made while connected
(with a live socket reference), each call produces exactly one write of that
command to the channel and the writes occur in the exact order the calls were
issued: the collected effect trace is precisely the command list, frame by
frame — no drops, no duplication, no reordering. -/
theorem C3_connected_sends_in_order (s : UIState) (cmds : List String)
    (h1 : s.isConnected = true) (h2 : s.hasWs = true) :
    (sendAll s cmds).2 = cmds.map OutEvent.frame := by
  induction cmds generalizing s with
  | nil => rfl
  | cons c rest ih =>
    have hc1 : ((sendCommand s c).1).isConnected = true := by
      rw [sendCommand_fst_isConnected]; exact h1
    have hc2 : ((sendCommand s c).1).hasWs = true := by
      rw [sendCommand_fst_hasWs]; exact h2
    simp only [sendAll, sendCommand_connected_frames s c h1 h2,
      ih (sendCommand s c).1 hc1 hc2, List.map_cons]
    rfl

/-- **C3 witness.** -/
theorem C3_connected_sends_in_order_witness :
    (sendAll connectedState ["U", "H", "L"]).2
      = [OutEvent.frame "U", OutEvent.frame "H", OutEvent.frame "L"] :=
  C3_connected_sends_in_order connectedState ["U", "H", "L"] rfl rfl

/-- **C5.** `disconnect` is idempotent: from every controller state, a second
`disconnect` immediately after a first one leaves exactly the state the first
produced, emits no further channel traffic (so only the first call's
teardown messages exist), and — being a total function — raises no error. -/
theorem C5_disconnect_idempotent (s : UIState) :
    (disconnect (disconnect s).1).1 = (disconnect s).1 ∧
    (disconnect (disconnect s).1).2 = [] := by
  cases h : s.hasWs <;> simp [disconnect, h]

/-- A controller state whose address field is empty. -/
def emptyAddrState : UIState := { initState with ipAddress := "" }

/-- **C4 counterexample.** The claim says every error path — including a
connect attempt with an empty host address — yields a client-visible error
notification.  At the concrete state below the address is empty, and
`connect` returns with the state completely unchanged and no effect: the
status text still reads `"Disconnected"`, so no client-visible message of any
kind is produced. -/
theorem C4_empty_address_connect_silent :
    connect emptyAddrState = (emptyAddrState, []) ∧
    emptyAddrState.connectionStatus = "Disconnected" := by
  constructor
  · unfold connect
    rw [if_pos (show isBlank emptyAddrState.ipAddress = true by decide)]
  · rfl

/-- **C4 (amended).** Errors reported on an attempted or active connection
are surfaced as client-visible status text (`error` relay messages set the
status to `"Connection Failed"` and WebSocket errors set it to
`"WebSocket Error"`), but a connect attempt with an empty or all-whitespace
host address returns silently, with no state change and no client-visible
notification. -/
theorem C4_error_surfacing (s : UIState) (m : String)
    (h : isBlank s.ipAddress = true) :
    connect s = (s, []) ∧
    (onMessage s (InMessage.error m)).connectionStatus = "Connection Failed" ∧
    (onError s).connectionStatus = "WebSocket Error" := by
  refine ⟨?_, rfl, rfl⟩
  unfold connect
  rw [if_pos h]

/-- **C4 witness.** -/
theorem C4_error_surfacing_witness :
    connect emptyAddrState = (emptyAddrState, []) ∧
    (onMessage emptyAddrState (InMessage.error "Robot connection failed")).connectionStatus
      = "Connection Failed" :=
  let h := C4_error_surfacing emptyAddrState "Robot connection failed" (by decide)
  ⟨h.1, h.2.1⟩

/-- The full command vocabulary sent as bare single-character frames. -/
def motionCommands : List String := ["U", "D", "L", "R", "W", "S", "H", "Q"]

/-- **C6.** Both message forms travel on the same outbound channel: on socket
open the UI sends the structured JSON control text for a connect request, on
teardown `disconnect` sends the structured JSON disconnect text before the
close call, and every motion command is written as a bare single-character
plain-text frame — one character long and not beginning with a JSON object
opener, hence never wrapped in a JSON envelope. -/
theorem C6_wire_forms (s : UIState) (c : String)
    (hc : c ∈ motionCommands) (h1 : s.isConnected = true) (h2 : s.hasWs = true) :
    (onOpen s).2 = [OutEvent.frame connectJson] ∧
    (disconnect s).2 = [OutEvent.frame disconnectJson, OutEvent.wsClose] ∧
    (sendCommand s c).2 = [OutEvent.frame c] ∧
    c.length = 1 ∧ c.data.contains '\x7b' = false := by
  refine ⟨rfl, ?_, sendCommand_connected_frames s c h1 h2, ?_⟩
  · simp [disconnect, h2]
  · fin_cases hc <;> exact ⟨rfl, by decide⟩

/-- **C6 witness.** -/
theorem C6_wire_forms_witness :
    (onOpen connectedState).2 = [OutEvent.frame connectJson] ∧
    (sendCommand connectedState "U").2 = [OutEvent.frame "U"] :=
  let h := C6_wire_forms connectedState "U" (by decide) rfl rfl
  ⟨h.1, h.2.2.1⟩

/-- Whether an inbound message is a `status` message with `connected` true —
the only shape that makes the UI enter the connected state. -/
def signalsConnected : InMessage → Bool
  | InMessage.status true => true
  | _ => false

theorem onMessage_isConnected (s : UIState) (m : InMessage) :
    (onMessage s m).isConnected = (s.isConnected || signalsConnected m) := by
  cases m with
  | status b => cases b <;> simp [onMessage, signalsConnected]
  | error msg => simp [onMessage, signalsConnected]
  | acknowledgment c => simp [onMessage, signalsConnected]
  | other => simp [onMessage, signalsConnected]
  | unparseable => simp [onMessage, signalsConnected]

/-- Processing a list of inbound messages in order. -/
def runMessages (s : UIState) (ms : List InMessage) : UIState :=
  ms.foldl onMessage s

theorem runMessages_isConnected (s : UIState) (ms : List InMessage) :
    (runMessages s ms).isConnected = (s.isConnected || ms.any signalsConnected) := by
  induction ms generalizing s with
  | nil => simp [runMessages]
  | cons m rest ih =>
    simp only [runMessages, List.foldl_cons, List.any_cons]
    rw [show List.foldl onMessage (onMessage s m) rest = runMessages (onMessage s m) rest from rfl]
    rw [ih (onMessage s m), onMessage_isConnected]
    cases s.isConnected <;> simp

theorem signalsConnected_eq_true (m : InMessage) :
    signalsConnected m = true ↔ m = InMessage.status true := by
  cases m with
  | status b => cases b <;> simp [signalsConnected]
  | error msg => simp [signalsConnected]
  | acknowledgment c => simp [signalsConnected]
  | other => simp [signalsConnected]
  | unparseable => simp [signalsConnected]

/-- **C7.** Starting from any state in which the UI is not connected (e.g.
after a disconnect or close), processing any sequence of inbound messages
leaves the UI connected exactly when that sequence contains a `status`
message with `connected` true: no other message kind (error, acknowledgment,
other objects, unparseable data) sets `isConnected`. -/
theorem C7_connected_only_by_status (s : UIState) (ms : List InMessage)
    (h : s.isConnected = false) :
    ((runMessages s ms).isConnected = true ↔ InMessage.status true ∈ ms) := by
  rw [runMessages_isConnected, h, Bool.false_or, List.any_eq_true]
  constructor
  · rintro ⟨m, hm, hsig⟩
    rw [signalsConnected_eq_true] at hsig
    rw [hsig] at hm
    exact hm
  · intro hmem
    exact ⟨InMessage.status true, hmem, rfl⟩

/-- **C7 witness.** -/
theorem C7_connected_only_by_status_witness :
    (runMessages initState
      [InMessage.acknowledgment "U", InMessage.status true]).isConnected = true :=
  (C7_connected_only_by_status initState
    [InMessage.acknowledgment "U", InMessage.status true] rfl).mpr (by simp)

/-- **C8.** For a speed-slider change while connected (with a live socket
reference): a strictly higher value sends exactly one `W` frame, a strictly
lower value sends exactly one `S` frame, and an unchanged value sends
nothing. -/
theorem C8_speed_slider_commands (s : UIState) (v : Nat)
    (h1 : s.isConnected = true) (h2 : s.hasWs = true) :
    (s.speed < v → (handleSpeedChange s v).2 = [OutEvent.frame "W"]) ∧
    (v < s.speed → (handleSpeedChange s v).2 = [OutEvent.frame "S"]) ∧
    (v = s.speed → (handleSpeedChange s v).2 = []) := by
  refine ⟨?_, ?_, ?_⟩ <;> intro h
  · have hne : (v != s.speed) = true := by
      simp only [bne_iff_ne, ne_eq]
      omega
    simp [handleSpeedChange, sendCommand, h1, h2, hne, h]
  · have hne : (v != s.speed) = true := by
      simp only [bne_iff_ne, ne_eq]
      omega
    have hlt : ¬ s.speed < v := by omega
    simp [handleSpeedChange, sendCommand, h1, h2, hne, hlt]
  · simp [handleSpeedChange, h]

/-- **C8 witness.** -/
theorem C8_speed_slider_commands_witness :
    (handleSpeedChange connectedState 60).2 = [OutEvent.frame "W"] :=
  (C8_speed_slider_commands connectedState 60 rfl rfl).1 (by decide)

/-- **C9.** The `useEffect` cleanup run on unmount always cancels the pending
active-command timeout, and whenever a socket reference is held it issues the
close call on it — the connection resource is released when the UI goes
away. -/
theorem C9_unmount_releases_resources (s : UIState) :
    (unmountCleanup s).1.timerPending = false ∧
    (s.hasWs = true → (unmountCleanup s).2 = [OutEvent.wsClose]) := by
  refine ⟨rfl, ?_⟩
  intro h
  simp [unmountCleanup, h]

/-- **C9 witness.** -/
theorem C9_unmount_releases_resources_witness :
    (unmountCleanup connectedState).1.timerPending = false ∧
    (unmountCleanup connectedState).2 = [OutEvent.wsClose] :=
  ⟨(C9_unmount_releases_resources connectedState).1,
   (C9_unmount_releases_resources connectedState).2 rfl⟩

/-- The speed invariant: an integer between 10 and 100 inclusive and a
multiple of 10. -/
def speedInv (v : Nat) : Prop :=
  10 ≤ v ∧ v ≤ 100 ∧ v % 10 = 0

/-- Modelled from the spec: the `Slider` component's implementation (under
`components/ui/`, not part of this snapshot) reports values constrained by
the props it is instantiated with in `RobotController.jsx` — `min=10`,
`max=100`, `step=10` — so every value it passes to `onValueChange` is a
multiple of 10 between 10 and 100. -/
def sliderReportedValue (v : Nat) : Prop :=
  10 ≤ v ∧ v ≤ 100 ∧ v % 10 = 0

theorem disconnect_fst_speed (s : UIState) :
    ((disconnect s).1).speed = s.speed := by
  cases h : s.hasWs <;> simp [disconnect, h]

theorem handleTouchEnd_fst_speed (s : UIState) :
    ((handleTouchEnd s).1).speed = s.speed := by
  unfold handleTouchEnd
  split
  · exact sendCommand_fst_speed s "H"
  · rfl

theorem handleSpeedChange_fst_speed (s : UIState) (v : Nat) :
    ((handleSpeedChange s v).1).speed = v := by
  unfold handleSpeedChange
  split
  · exact sendCommand_fst_speed { s with speed := v } _
  · rfl

theorem onMessage_speed (s : UIState) (m : InMessage) :
    (onMessage s m).speed = s.speed := by
  cases m with
  | status b => cases b <;> rfl
  | error msg => rfl
  | acknowledgment c => rfl
  | other => rfl
  | unparseable => rfl

theorem connect_fst_speed (s : UIState) :
    ((connect s).1).speed = s.speed := by
  unfold connect; split <;> rfl

/-- **C10.** The controller's speed value starts at 50 and is always an
integer in 10..100 and a multiple of 10: a slider interaction stores exactly
the slider-reported value (which satisfies the bound), and every other UI
operation — sending commands, touch release, the visual-feedback timeout,
connect/disconnect, inbound message handling, socket callbacks, unmount
cleanup — leaves the speed unchanged. -/
theorem C10_speed_invariant :
    initState.speed = 50 ∧ speedInv initState.speed ∧
    (∀ s v, sliderReportedValue v → speedInv ((handleSpeedChange s v).1.speed)) ∧
    (∀ s c, speedInv s.speed → speedInv ((sendCommand s c).1.speed)) ∧
    (∀ s, speedInv s.speed → speedInv ((handleTouchEnd s).1.speed)) ∧
    (∀ s, speedInv s.speed → speedInv ((commandTimeoutFire s).speed)) ∧
    (∀ s, speedInv s.speed → speedInv ((connect s).1.speed)) ∧
    (∀ s, speedInv s.speed → speedInv ((onOpen s).1.speed)) ∧
    (∀ s m, speedInv s.speed → speedInv ((onMessage s m).speed)) ∧
    (∀ s, speedInv s.speed → speedInv ((onError s).speed)) ∧
    (∀ s, speedInv s.speed → speedInv ((onClose s).speed)) ∧
    (∀ s, speedInv s.speed → speedInv ((disconnect s).1.speed)) ∧
    (∀ s, speedInv s.speed → speedInv ((unmountCleanup s).1.speed)) := by
  refine ⟨rfl, ⟨by norm_num [initState], by norm_num [initState], by norm_num [initState]⟩,
    ?_, ?_, ?_, ?_, ?_, ?_, ?_, ?_, ?_, ?_, ?_⟩
  · intro s v hv
    rw [handleSpeedChange_fst_speed]
    exact hv
  · intro s c h
    rw [sendCommand_fst_speed]
    exact h
  · intro s h
    rw [handleTouchEnd_fst_speed]
    exact h
  · intro s h
    exact h
  · intro s h
    rw [connect_fst_speed]
    exact h
  · intro s h
    exact h
  · intro s m h
    rw [onMessage_speed]
    exact h
  · intro s h
    exact h
  · intro s h
    exact h
  · intro s h
    rw [disconnect_fst_speed]
    exact h
  · intro s h
    exact h

/-- **C10 witness.** -/
theorem C10_speed_invariant_witness :
    speedInv ((handleSpeedChange connectedState 70).1.speed) :=
  C10_speed_invariant.2.2.1 connectedState 70 ⟨by norm_num, by norm_num, by norm_num⟩

end RobotApp
